import Mathlib

/-!
Shallow embedding of `craigslist_complex_generator.py`: a batch generator that
builds 100 curated Craigslist search tasks (cars+trucks, motorcycles,
rvs+camp, boats) and serializes them to a CSV file.  Python dictionaries with
string keys are modelled as insertion-ordered association lists, `urllib.parse.quote`
is modelled byte-for-byte on the UTF-8 encoding of its argument, and the
effectful `main` is modelled as a pure function returning either an assertion
failure (no file written) or the output path together with the CSV content.
-/

/-- Python scalar values appearing as filter-parameter values: strings or ints. -/
inductive PyScalar
  | str (s : String)
  | int (n : Int)
deriving DecidableEq

/-- Python values accepted by `build_url`: a scalar, or a list of scalars
(the filter-parameter sets in this program contain nothing deeper). -/
inductive PyValue
  | scalar (sc : PyScalar)
  | list (vs : List PyScalar)
deriving DecidableEq

/-- Shorthand used when transcribing the literal task tables. -/
def vstr (s : String) : PyValue := PyValue.scalar (PyScalar.str s)

/-- Python `str()` on a scalar. -/
def scalarStr : PyScalar → String
  | .str s => s
  | .int n => toString n

/-- Uppercase hex digit (as used by `urllib.parse.quote`). -/
def hexDigitU (n : Nat) : Char :=
  if n < 10 then Char.ofNat (48 + n) else Char.ofNat (55 + n)

/-- Lowercase hex digit (as used by `repr` and `json.dumps` escapes). -/
def hexDigitL (n : Nat) : Char :=
  if n < 10 then Char.ofNat (48 + n) else Char.ofNat (87 + n)

/-- One character of a Python `repr` of a string, with quote character code `q`. -/
def pyReprEscape (q : Nat) (c : Char) : String :=
  if c.toNat = 92 then String.mk [Char.ofNat 92, Char.ofNat 92]
  else if c.toNat = q then String.mk [Char.ofNat 92, Char.ofNat q]
  else if c.toNat = 10 then String.mk [Char.ofNat 92, Char.ofNat 110]
  else if c.toNat = 13 then String.mk [Char.ofNat 92, Char.ofNat 114]
  else if c.toNat = 9 then String.mk [Char.ofNat 92, Char.ofNat 116]
  else if c.toNat < 32 || c.toNat = 127 then
    String.mk [Char.ofNat 92, Char.ofNat 120, hexDigitL (c.toNat / 16), hexDigitL (c.toNat % 16)]
  else String.singleton c

/-- Python `repr` of a string: single quotes, switching to double quotes when the
string contains a single quote but no double quote. -/
def pyReprStr (s : String) : String :=
  let hasSingle := s.data.any (fun c => c.toNat = 39)
  let hasDouble := s.data.any (fun c => c.toNat = 34)
  let q : Nat := if hasSingle && !hasDouble then 34 else 39
  String.mk [Char.ofNat q] ++ String.join (s.data.map (pyReprEscape q)) ++ String.mk [Char.ofNat q]

/-- Python `repr` of a scalar (used for the elements when `str` is applied to a list). -/
def scalarRepr : PyScalar → String
  | .str s => pyReprStr s
  | .int n => toString n

/-- Python `str()` of a value: identity on strings, decimal on ints, and the
`[repr, repr, ...]` display form on lists. -/
def pyToStr : PyValue → String
  | .scalar sc => scalarStr sc
  | .list vs => "[" ++ String.intercalate ", " (vs.map scalarRepr) ++ "]"

/-- UTF-8 encoding of one character, as the list of its byte values. -/
def charUtf8 (c : Char) : List Nat :=
  let n := c.toNat
  if n < 128 then [n]
  else if n < 2048 then [192 + n / 64, 128 + n % 64]
  else if n < 65536 then [224 + n / 4096, 128 + (n / 64) % 64, 128 + n % 64]
  else [240 + n / 262144, 128 + (n / 4096) % 64, 128 + (n / 64) % 64, 128 + n % 64]

/-- Bytes left unescaped by `urllib.parse.quote` with its default `safe` of
one slash: ASCII letters, digits, and the marks in the set 45 46 95 126 47. -/
def isSafeByte (n : Nat) : Bool :=
  (65 ≤ n && n ≤ 90) || (97 ≤ n && n ≤ 122) || (48 ≤ n && n ≤ 57) ||
  n == 45 || n == 46 || n == 95 || n == 126 || n == 47

/-- Percent-encoding of one byte: the byte itself when safe, else percent and
two uppercase hex digits. -/
def quoteByteChars (n : Nat) : List Char :=
  if isSafeByte n then [Char.ofNat n]
  else [Char.ofNat 37, hexDigitU (n / 16), hexDigitU (n % 16)]

/-- `urllib.parse.quote` with default arguments: UTF-8 encode, then
percent-encode every unsafe byte. -/
def quote (s : String) : String :=
  String.mk ((s.data.flatMap charUtf8).flatMap quoteByteChars)

/-- The body of the parameter loop in `build_url`: the pairs emitted for one
`(key, value)` entry of the params dictionary, in order. -/
def encodeParam (key : String) (value : PyValue) : List String :=
  if key == "query" || key == "auto_make_model" then
    [key ++ "=" ++ quote (pyToStr value)]
  else
    match value with
    | .list vs => vs.map (fun v => key ++ "=" ++ scalarStr v)
    | .scalar sc => [key ++ "=" ++ scalarStr sc]

/-- `build_url(base_url, category_code, params)`: `base/search/code`, then a
query string joined with ampersands when the params dictionary is non-empty,
then the fixed fragment. -/
def build_url (base_url : String) (category_code : String)
    (params : List (String × PyValue)) : String :=
  let url := base_url ++ "/search/" ++ category_code
  let url := if params.isEmpty then url
    else url ++ "?" ++ String.intercalate "&" (params.flatMap (fun kv => encodeParam kv.1 kv.2))
  url ++ "#search=2~gallery~0"

/-- One entry of the `REGIONS` table. -/
structure Region where
  url_prefix : String
  location : String
  timezone : String
deriving DecidableEq

/-- Accessor for the base-URL field of a region (named access point used below). -/
def regionUrl (rc : Region) : String := Region.url_prefix rc

/-- The five valid `--region` choices accepted by the argument parser. -/
inductive RegionKey
  | sfbay | losangeles | newyork | seattle | chicago
deriving DecidableEq

/-- The literal `(task, params, difficulty)` triples of the task tables. -/
structure TaskEntry where
  task : String
  params : List (String × PyValue)
  difficulty : String
deriving DecidableEq

/-- The `TaskConfig` dataclass. -/
structure TaskConfig where
  task_id : String
  task : String
  url : String
  gt_urls : List (List String)
  location : String
  timezone : String
  difficulty : String
  l2_category : String
deriving DecidableEq
def REGIONS : RegionKey → Region
  | .sfbay =>
    { url_prefix := "https://sfbay.craigslist.org",
      location := "San Francisco, CA, United States",
      timezone := "America/Los_Angeles" }
  | .losangeles =>
    { url_prefix := "https://losangeles.craigslist.org",
      location := "Los Angeles, CA, United States",
      timezone := "America/Los_Angeles" }
  | .newyork =>
    { url_prefix := "https://newyork.craigslist.org",
      location := "New York, NY, United States",
      timezone := "America/New_York" }
  | .seattle =>
    { url_prefix := "https://seattle.craigslist.org",
      location := "Seattle, WA, United States",
      timezone := "America/Los_Angeles" }
  | .chicago =>
    { url_prefix := "https://chicago.craigslist.org",
      location := "Chicago, IL, United States",
      timezone := "America/Chicago" }

def car_tasks : List TaskEntry := [
  ⟨"Find Toyota cars with images priced under $15,000.",
    [("auto_make_model", vstr "toyota"),
     ("hasPic", vstr "1"),
     ("max_price", vstr "15000")], "medium"⟩,
  ⟨"Browse Honda Accord cars sold by owners.",
    [("auto_make_model", vstr "honda accord"),
     ("purveyor", vstr "owner")], "medium"⟩,
  ⟨"Find cars under $8,000 with images sorted by lowest price.",
    [("max_price", vstr "8000"),
     ("hasPic", vstr "1"),
     ("sort", vstr "priceasc")], "medium"⟩,
  ⟨"Search for Ford vehicles from dealers with photos.",
    [("auto_make_model", vstr "ford"),
     ("purveyor", vstr "dealer"),
     ("hasPic", vstr "1")], "medium"⟩,
  ⟨"Find cars priced between $5,000 and $12,000.",
    [("min_price", vstr "5000"),
     ("max_price", vstr "12000")], "easy"⟩,
  ⟨"Find cars with automatic transmission under $10,000 with images.",
    [("auto_transmission", vstr "1"),
     ("max_price", vstr "10000"),
     ("hasPic", vstr "1")], "hard"⟩,
  ⟨"Search for manual transmission cars priced between $5,000 and $20,000.",
    [("auto_transmission", vstr "2"),
     ("min_price", vstr "5000"),
     ("max_price", vstr "20000")], "hard"⟩,
  ⟨"Browse manual transmission sports cars with images.",
    [("auto_transmission", vstr "2"),
     ("auto_bodytype", vstr "3"),
     ("hasPic", vstr "1")], "hard"⟩,
  ⟨"Find electric vehicles with images.",
    [("auto_fuel_type", vstr "4"),
     ("hasPic", vstr "1")], "medium"⟩,
  ⟨"Browse hybrid cars under $25,000 sold by owners.",
    [("auto_fuel_type", vstr "3"),
     ("max_price", vstr "25000"),
     ("purveyor", vstr "owner")], "hard"⟩,
  ⟨"Find diesel trucks with images priced under $35,000.",
    [("auto_fuel_type", vstr "2"),
     ("auto_bodytype", vstr "9"),
     ("hasPic", vstr "1"),
     ("max_price", vstr "35000")], "hard"⟩,
  ⟨"Search for gasoline SUVs under $20,000.",
    [("auto_fuel_type", vstr "1"),
     ("auto_bodytype", vstr "10"),
     ("max_price", vstr "20000")], "hard"⟩,
  ⟨"Find SUVs with images under $18,000.",
    [("auto_bodytype", vstr "10"),
     ("hasPic", vstr "1"),
     ("max_price", vstr "18000")], "medium"⟩,
  ⟨"Browse pickup trucks sold by owners with photos.",
    [("auto_bodytype", vstr "7"),
     ("purveyor", vstr "owner"),
     ("hasPic", vstr "1")], "medium"⟩,
  ⟨"Find sedans with automatic transmission under $12,000.",
    [("auto_bodytype", vstr "8"),
     ("auto_transmission", vstr "1"),
     ("max_price", vstr "12000")], "hard"⟩,
  ⟨"Search for convertibles priced between $15,000 and $40,000 with images.",
    [("auto_bodytype", vstr "2"),
     ("min_price", vstr "15000"),
     ("max_price", vstr "40000"),
     ("hasPic", vstr "1")], "hard"⟩,
  ⟨"Find 4WD vehicles with images under $25,000.",
    [("auto_drivetrain", vstr "3"),
     ("hasPic", vstr "1"),
     ("max_price", vstr "25000")], "hard"⟩,
  ⟨"Browse rear-wheel drive cars sold by owners.",
    [("auto_drivetrain", vstr "2"),
     ("purveyor", vstr "owner")], "medium"⟩,
  ⟨"Find front-wheel drive sedans under $15,000 with images.",
    [("auto_drivetrain", vstr "1"),
     ("auto_bodytype", vstr "8"),
     ("max_price", vstr "15000"),
     ("hasPic", vstr "1")], "hard"⟩,
  ⟨"Find cars with clean title under $10,000 with images.",
    [("srchType", vstr "T"),
     ("max_price", vstr "10000"),
     ("hasPic", vstr "1")], "hard"⟩,
  ⟨"Browse salvage title vehicles under $5,000.",
    [("auto_title_status", vstr "2"),
     ("max_price", vstr "5000")], "medium"⟩,
  ⟨"Find cars from 2020 or newer with images.",
    [("min_auto_year", vstr "2020"),
     ("hasPic", vstr "1")], "medium"⟩,
  ⟨"Browse classic cars from 1985 or older with photos.",
    [("max_auto_year", vstr "1985"),
     ("hasPic", vstr "1")], "medium"⟩,
  ⟨"Find cars between 2018 and 2022 priced under $25,000.",
    [("min_auto_year", vstr "2018"),
     ("max_auto_year", vstr "2022"),
     ("max_price", vstr "25000")], "hard"⟩,
  ⟨"Find low mileage cars under 50,000 miles with images.",
    [("max_auto_miles", vstr "50000"),
     ("hasPic", vstr "1")], "medium"⟩,
  ⟨"Browse cars with less than 80,000 miles priced under $15,000.",
    [("max_auto_miles", vstr "80000"),
     ("max_price", vstr "15000")], "hard"⟩,
  ⟨"Find white SUVs with images under $22,000.",
    [("auto_paint", vstr "10"),
     ("auto_bodytype", vstr "10"),
     ("hasPic", vstr "1"),
     ("max_price", vstr "22000")], "hard"⟩,
  ⟨"Browse black sedans sold by owners with photos.",
    [("auto_paint", vstr "1"),
     ("auto_bodytype", vstr "8"),
     ("purveyor", vstr "owner"),
     ("hasPic", vstr "1")], "hard"⟩,
  ⟨"Find Toyota Camry with automatic transmission under 70,000 miles priced between $12,000 and $22,000 with images.",
    [("auto_make_model", vstr "toyota camry"),
     ("auto_transmission", vstr "1"),
     ("max_auto_miles", vstr "70000"),
     ("min_price", vstr "12000"),
     ("max_price", vstr "22000"),
     ("hasPic", vstr "1")], "hard"⟩,
  ⟨"Search for Honda CR-V SUVs with 4WD from 2019 or newer under $30,000 with photos.",
    [("auto_make_model", vstr "honda cr-v"),
     ("auto_bodytype", vstr "10"),
     ("auto_drivetrain", vstr "3"),
     ("min_auto_year", vstr "2019"),
     ("max_price", vstr "30000"),
     ("hasPic", vstr "1")], "hard"⟩]

def motorcycle_tasks : List TaskEntry := [
  ⟨"Find Harley-Davidson motorcycles with images priced under $15,000.",
    [("auto_make_model", vstr "harley"),
     ("hasPic", vstr "1"),
     ("max_price", vstr "15000")], "hard"⟩,
  ⟨"Browse Honda motorcycles sold by owners.",
    [("auto_make_model", vstr "honda"),
     ("purveyor", vstr "owner")], "medium"⟩,
  ⟨"Find Yamaha motorcycles priced between $4,000 and $10,000.",
    [("auto_make_model", vstr "yamaha"),
     ("min_price", vstr "4000"),
     ("max_price", vstr "10000")], "hard"⟩,
  ⟨"Search for Kawasaki Ninja motorcycles with images.",
    [("auto_make_model", vstr "kawasaki ninja"),
     ("hasPic", vstr "1")], "medium"⟩,
  ⟨"Browse BMW motorcycles under $18,000 with photos.",
    [("auto_make_model", vstr "bmw"),
     ("max_price", vstr "18000"),
     ("hasPic", vstr "1")], "hard"⟩,
  ⟨"Find Ducati motorcycles sold by owners with images.",
    [("auto_make_model", vstr "ducati"),
     ("purveyor", vstr "owner"),
     ("hasPic", vstr "1")], "hard"⟩,
  ⟨"Find motorcycles from 2020 or newer with images.",
    [("min_auto_year", vstr "2020"),
     ("hasPic", vstr "1")], "medium"⟩,
  ⟨"Browse vintage motorcycles from 1990 or older with photos.",
    [("max_auto_year", vstr "1990"),
     ("hasPic", vstr "1")], "medium"⟩,
  ⟨"Find motorcycles between 2017 and 2022 priced under $12,000.",
    [("min_auto_year", vstr "2017"),
     ("max_auto_year", vstr "2022"),
     ("max_price", vstr "12000")], "hard"⟩,
  ⟨"Find low mileage motorcycles under 10,000 miles with images.",
    [("max_auto_miles", vstr "10000"),
     ("hasPic", vstr "1")], "medium"⟩,
  ⟨"Browse motorcycles with less than 25,000 miles priced under $8,000.",
    [("max_auto_miles", vstr "25000"),
     ("max_price", vstr "8000")], "hard"⟩,
  ⟨"Find new condition motorcycles with images.",
    [("condition", vstr "10"),
     ("hasPic", vstr "1")], "medium"⟩,
  ⟨"Browse motorcycles in excellent condition under $10,000.",
    [("condition", vstr "30"),
     ("max_price", vstr "10000")], "hard"⟩,
  ⟨"Find like-new motorcycles sold by owners.",
    [("condition", vstr "20"),
     ("purveyor", vstr "owner")], "medium"⟩,
  ⟨"Find sport bikes under $9,000 with images.",
    [("query", vstr "sport bike"),
     ("hasPic", vstr "1"),
     ("max_price", vstr "9000")], "hard"⟩,
  ⟨"Browse cruiser motorcycles sold by owners with photos.",
    [("query", vstr "cruiser"),
     ("purveyor", vstr "owner"),
     ("hasPic", vstr "1")], "hard"⟩,
  ⟨"Search for touring motorcycles priced between $8,000 and $20,000.",
    [("query", vstr "touring"),
     ("min_price", vstr "8000"),
     ("max_price", vstr "20000")], "hard"⟩,
  ⟨"Find dirt bikes under $6,000 with images.",
    [("query", vstr "dirt bike"),
     ("hasPic", vstr "1"),
     ("max_price", vstr "6000")], "hard"⟩,
  ⟨"Browse adventure motorcycles with photos.",
    [("query", vstr "adventure"),
     ("hasPic", vstr "1")], "medium"⟩,
  ⟨"Find motorcycles under $5,000 sorted by lowest price with images.",
    [("max_price", vstr "5000"),
     ("sort", vstr "priceasc"),
     ("hasPic", vstr "1")], "hard"⟩,
  ⟨"Browse Harley-Davidson motorcycles sorted by newest listings.",
    [("auto_make_model", vstr "harley"),
     ("sort", vstr "date")], "medium"⟩,
  ⟨"Find Harley-Davidson touring motorcycles from 2018 or newer under $22,000 with images.",
    [("auto_make_model", vstr "harley"),
     ("query", vstr "touring"),
     ("min_auto_year", vstr "2018"),
     ("max_price", vstr "22000"),
     ("hasPic", vstr "1")], "hard"⟩,
  ⟨"Browse Honda sport bikes with less than 15,000 miles from owners.",
    [("auto_make_model", vstr "honda"),
     ("query", vstr "sport"),
     ("max_auto_miles", vstr "15000"),
     ("purveyor", vstr "owner")], "hard"⟩,
  ⟨"Find Suzuki motorcycles in excellent condition priced between $3,000 and $8,000.",
    [("auto_make_model", vstr "suzuki"),
     ("condition", vstr "30"),
     ("min_price", vstr "3000"),
     ("max_price", vstr "8000")], "hard"⟩,
  ⟨"Search for KTM dirt bikes under $7,000 with photos from owners.",
    [("auto_make_model", vstr "ktm"),
     ("query", vstr "dirt"),
     ("max_price", vstr "7000"),
     ("hasPic", vstr "1"),
     ("purveyor", vstr "owner")], "hard"⟩]

def rv_tasks : List TaskEntry := [
  ⟨"Find Class A motorhomes with images priced under $60,000.",
    [("query", vstr "class a motorhome"),
     ("hasPic", vstr "1"),
     ("max_price", vstr "60000")], "hard"⟩,
  ⟨"Browse Class B camper vans sold by owners.",
    [("query", vstr "class b"),
     ("purveyor", vstr "owner")], "medium"⟩,
  ⟨"Search for Class C motorhomes priced between $35,000 and $75,000.",
    [("query", vstr "class c motorhome"),
     ("min_price", vstr "35000"),
     ("max_price", vstr "75000")], "hard"⟩,
  ⟨"Find travel trailers under $18,000 with images.",
    [("query", vstr "travel trailer"),
     ("hasPic", vstr "1"),
     ("max_price", vstr "18000")], "hard"⟩,
  ⟨"Browse fifth wheel trailers from dealers with photos.",
    [("query", vstr "fifth wheel"),
     ("purveyor", vstr "dealer"),
     ("hasPic", vstr "1")], "hard"⟩,
  ⟨"Find pop-up campers under $7,000 with images.",
    [("query", vstr "pop up camper"),
     ("max_price", vstr "7000"),
     ("hasPic", vstr "1")], "hard"⟩,
  ⟨"Search for toy haulers priced under $45,000 with photos.",
    [("query", vstr "toy hauler"),
     ("hasPic", vstr "1"),
     ("max_price", vstr "45000")], "hard"⟩,
  ⟨"Find truck campers under $12,000 sold by owners.",
    [("query", vstr "truck camper"),
     ("max_price", vstr "12000"),
     ("purveyor", vstr "owner")], "hard"⟩,
  ⟨"Find Airstream trailers with images.",
    [("query", vstr "airstream"),
     ("hasPic", vstr "1")], "medium"⟩,
  ⟨"Browse Winnebago motorhomes under $70,000 with photos.",
    [("query", vstr "winnebago"),
     ("max_price", vstr "70000"),
     ("hasPic", vstr "1")], "hard"⟩,
  ⟨"Search for Jayco RVs sold by owners.",
    [("query", vstr "jayco"),
     ("purveyor", vstr "owner")], "medium"⟩,
  ⟨"Find Forest River trailers priced between $12,000 and $30,000.",
    [("query", vstr "forest river"),
     ("min_price", vstr "12000"),
     ("max_price", vstr "30000")], "hard"⟩,
  ⟨"Browse Keystone RVs under $28,000 with images.",
    [("query", vstr "keystone"),
     ("max_price", vstr "28000"),
     ("hasPic", vstr "1")], "hard"⟩,
  ⟨"Find new condition RVs with images.",
    [("condition", vstr "10"),
     ("hasPic", vstr "1")], "medium"⟩,
  ⟨"Browse travel trailers in excellent condition under $25,000.",
    [("query", vstr "travel trailer"),
     ("condition", vstr "30"),
     ("max_price", vstr "25000")], "hard"⟩,
  ⟨"Find motorhomes in like-new condition from owners.",
    [("query", vstr "motorhome"),
     ("condition", vstr "20"),
     ("purveyor", vstr "owner")], "hard"⟩,
  ⟨"Find RVs under $15,000 sorted by lowest price with images.",
    [("max_price", vstr "15000"),
     ("sort", vstr "priceasc"),
     ("hasPic", vstr "1")], "hard"⟩,
  ⟨"Browse travel trailers sorted by newest listings.",
    [("query", vstr "travel trailer"),
     ("sort", vstr "date")], "medium"⟩,
  ⟨"Find Airstream travel trailers in excellent condition under $90,000 with images.",
    [("query", vstr "airstream"),
     ("condition", vstr "30"),
     ("max_price", vstr "90000"),
     ("hasPic", vstr "1")], "hard"⟩,
  ⟨"Browse diesel motorhomes priced between $40,000 and $120,000.",
    [("query", vstr "diesel motorhome"),
     ("min_price", vstr "40000"),
     ("max_price", vstr "120000")], "hard"⟩,
  ⟨"Find teardrop trailers under $15,000 sold by owners with photos.",
    [("query", vstr "teardrop"),
     ("max_price", vstr "15000"),
     ("purveyor", vstr "owner"),
     ("hasPic", vstr "1")], "hard"⟩,
  ⟨"Search for van conversions under $50,000 with images from owners.",
    [("query", vstr "van conversion"),
     ("max_price", vstr "50000"),
     ("hasPic", vstr "1"),
     ("purveyor", vstr "owner")], "hard"⟩,
  ⟨"Find hybrid travel trailers under $35,000 with photos.",
    [("query", vstr "hybrid trailer"),
     ("max_price", vstr "35000"),
     ("hasPic", vstr "1")], "hard"⟩]

def boat_tasks : List TaskEntry := [
  ⟨"Find fishing boats with images priced under $18,000.",
    [("query", vstr "fishing boat"),
     ("hasPic", vstr "1"),
     ("max_price", vstr "18000")], "hard"⟩,
  ⟨"Browse sailboats sold by owners with photos.",
    [("query", vstr "sailboat"),
     ("purveyor", vstr "owner"),
     ("hasPic", vstr "1")], "hard"⟩,
  ⟨"Search for pontoon boats priced between $12,000 and $35,000.",
    [("query", vstr "pontoon"),
     ("min_price", vstr "12000"),
     ("max_price", vstr "35000")], "hard"⟩,
  ⟨"Find bass boats under $22,000 with images.",
    [("query", vstr "bass boat"),
     ("hasPic", vstr "1"),
     ("max_price", vstr "22000")], "hard"⟩,
  ⟨"Browse center console boats from dealers.",
    [("query", vstr "center console"),
     ("purveyor", vstr "dealer")], "medium"⟩,
  ⟨"Find ski boats priced under $28,000 with photos.",
    [("query", vstr "ski boat"),
     ("hasPic", vstr "1"),
     ("max_price", vstr "28000")], "hard"⟩,
  ⟨"Search for bowrider boats priced between $15,000 and $30,000.",
    [("query", vstr "bowrider"),
     ("min_price", vstr "15000"),
     ("max_price", vstr "30000")], "hard"⟩,
  ⟨"Find cabin cruiser boats with images.",
    [("query", vstr "cabin cruiser"),
     ("hasPic", vstr "1")], "medium"⟩,
  ⟨"Find kayaks with photos sorted by lowest price.",
    [("query", vstr "kayak"),
     ("hasPic", vstr "1"),
     ("sort", vstr "priceasc")], "medium"⟩,
  ⟨"Browse canoes under $800 sold by owners.",
    [("query", vstr "canoe"),
     ("max_price", vstr "800"),
     ("purveyor", vstr "owner")], "hard"⟩,
  ⟨"Find jet skis under $9,000 with images.",
    [("query", vstr "jet ski"),
     ("hasPic", vstr "1"),
     ("max_price", vstr "9000")], "hard"⟩,
  ⟨"Search for paddleboards with photos from owners.",
    [("query", vstr "paddleboard"),
     ("hasPic", vstr "1"),
     ("purveyor", vstr "owner")], "medium"⟩,
  ⟨"Find Boston Whaler boats with images under $40,000.",
    [("query", vstr "boston whaler"),
     ("hasPic", vstr "1"),
     ("max_price", vstr "40000")], "hard"⟩,
  ⟨"Browse Sea Ray boats priced between $25,000 and $55,000.",
    [("query", vstr "sea ray"),
     ("min_price", vstr "25000"),
     ("max_price", vstr "55000")], "hard"⟩,
  ⟨"Find Bayliner boats under $16,000 with photos.",
    [("query", vstr "bayliner"),
     ("max_price", vstr "16000"),
     ("hasPic", vstr "1")], "hard"⟩,
  ⟨"Find boats in excellent condition with images.",
    [("condition", vstr "30"),
     ("hasPic", vstr "1")], "medium"⟩,
  ⟨"Browse like-new fishing boats under $30,000.",
    [("query", vstr "fishing boat"),
     ("condition", vstr "20"),
     ("max_price", vstr "30000")], "hard"⟩,
  ⟨"Find boats under $10,000 sorted by lowest price with images.",
    [("max_price", vstr "10000"),
     ("sort", vstr "priceasc"),
     ("hasPic", vstr "1")], "hard"⟩,
  ⟨"Browse pontoon boats sorted by newest listings.",
    [("query", vstr "pontoon"),
     ("sort", vstr "date")], "medium"⟩,
  ⟨"Find aluminum fishing boats under $14,000 with images from owners.",
    [("query", vstr "aluminum fishing boat"),
     ("hasPic", vstr "1"),
     ("max_price", vstr "14000"),
     ("purveyor", vstr "owner")], "hard"⟩,
  ⟨"Browse Yamaha jet skis under $12,000 sold by owners with photos.",
    [("query", vstr "yamaha jet ski"),
     ("max_price", vstr "12000"),
     ("purveyor", vstr "owner"),
     ("hasPic", vstr "1")], "hard"⟩,
  ⟨"Find boat trailers under $2,500 with images from owners.",
    [("query", vstr "boat trailer"),
     ("max_price", vstr "2500"),
     ("hasPic", vstr "1"),
     ("purveyor", vstr "owner")], "hard"⟩]

/-- `generate_cars_trucks_tasks`: builds one `TaskConfig` per literal triple,
in list order, with the zero-based index from `enumerate`. -/
def generate_cars_trucks_tasks (region : RegionKey) : List TaskConfig :=
  let region_config := REGIONS region
  let base_url := regionUrl region_config
  (car_tasks.enum).map (fun it =>
    { task_id := "navi_bench/craigslist/cars_trucks/" ++ toString it.1,
      task := TaskEntry.task it.2,
      url := base_url ++ "/search/cta",
      gt_urls := [[build_url base_url "cta" (TaskEntry.params it.2)]],
      location := Region.location region_config,
      timezone := Region.timezone region_config,
      difficulty := TaskEntry.difficulty it.2,
      l2_category := "cars_trucks" })

/-- `generate_motorcycles_tasks`. -/
def generate_motorcycles_tasks (region : RegionKey) : List TaskConfig :=
  let region_config := REGIONS region
  let base_url := regionUrl region_config
  (motorcycle_tasks.enum).map (fun it =>
    { task_id := "navi_bench/craigslist/motorcycles/" ++ toString it.1,
      task := TaskEntry.task it.2,
      url := base_url ++ "/search/mca",
      gt_urls := [[build_url base_url "mca" (TaskEntry.params it.2)]],
      location := Region.location region_config,
      timezone := Region.timezone region_config,
      difficulty := TaskEntry.difficulty it.2,
      l2_category := "motorcycles" })

/-- `generate_rvs_camp_tasks`. -/
def generate_rvs_camp_tasks (region : RegionKey) : List TaskConfig :=
  let region_config := REGIONS region
  let base_url := regionUrl region_config
  (rv_tasks.enum).map (fun it =>
    { task_id := "navi_bench/craigslist/rvs_camp/" ++ toString it.1,
      task := TaskEntry.task it.2,
      url := base_url ++ "/search/rva",
      gt_urls := [[build_url base_url "rva" (TaskEntry.params it.2)]],
      location := Region.location region_config,
      timezone := Region.timezone region_config,
      difficulty := TaskEntry.difficulty it.2,
      l2_category := "rvs_camp" })

/-- `generate_boats_tasks`. -/
def generate_boats_tasks (region : RegionKey) : List TaskConfig :=
  let region_config := REGIONS region
  let base_url := regionUrl region_config
  (boat_tasks.enum).map (fun it =>
    { task_id := "navi_bench/craigslist/boats/" ++ toString it.1,
      task := TaskEntry.task it.2,
      url := base_url ++ "/search/boa",
      gt_urls := [[build_url base_url "boa" (TaskEntry.params it.2)]],
      location := Region.location region_config,
      timezone := Region.timezone region_config,
      difficulty := TaskEntry.difficulty it.2,
      l2_category := "boats" })

/-- A value stored in the CSV row dictionary: the program puts strings and one int. -/
inductive CellValue
  | str (v : String)
  | int (v : Int)
deriving DecidableEq

/-- `str()` as applied by the csv writer when serializing one cell. -/
def cellToStr : CellValue → String
  | .str v => v
  | .int v => toString v

/-- Four lowercase hex digits, as in a `json.dumps` unicode escape. -/
def hex4L (n : Nat) : String :=
  String.mk [hexDigitL ((n / 4096) % 16), hexDigitL ((n / 256) % 16),
             hexDigitL ((n / 16) % 16), hexDigitL (n % 16)]

/-- `json.dumps` escaping of one character (default `ensure_ascii=True`). -/
def jsonEscapeChar (c : Char) : String :=
  if c.toNat = 34 then String.mk [Char.ofNat 92, Char.ofNat 34]
  else if c.toNat = 92 then String.mk [Char.ofNat 92, Char.ofNat 92]
  else if c.toNat = 10 then String.mk [Char.ofNat 92, Char.ofNat 110]
  else if c.toNat = 13 then String.mk [Char.ofNat 92, Char.ofNat 114]
  else if c.toNat = 9 then String.mk [Char.ofNat 92, Char.ofNat 116]
  else if c.toNat = 8 then String.mk [Char.ofNat 92, Char.ofNat 98]
  else if c.toNat = 12 then String.mk [Char.ofNat 92, Char.ofNat 102]
  else if c.toNat < 32 then String.mk [Char.ofNat 92, Char.ofNat 117] ++ hex4L c.toNat
  else if c.toNat < 128 then String.singleton c
  else if c.toNat < 65536 then String.mk [Char.ofNat 92, Char.ofNat 117] ++ hex4L c.toNat
  else
    String.mk [Char.ofNat 92, Char.ofNat 117] ++ hex4L (55296 + (c.toNat - 65536) / 1024) ++
    String.mk [Char.ofNat 92, Char.ofNat 117] ++ hex4L (56320 + (c.toNat - 65536) % 1024)

/-- A JSON string literal for `s`, as produced by `json.dumps`. -/
def jsonString (s : String) : String :=
  "\"" ++ String.join (s.data.map jsonEscapeChar) ++ "\""

/-- A JSON array with the given already-serialized elements
(default `json.dumps` separators put a comma and a space between elements). -/
def jsonArray (elems : List String) : String :=
  "[" ++ String.intercalate ", " elems ++ "]"

/-- `json.dumps(task_generation_config)`: the nested config dictionary of one
task, serialized with keys in insertion order. -/
def task_generation_config_json (t : TaskConfig) : String :=
  "\x7b\"_target_\": \"navi_bench.craigslist.craigslist_url_match.generate_task_config\", " ++
  "\"url\": " ++ jsonString (TaskConfig.url t) ++ ", " ++
  "\"task\": " ++ jsonString (TaskConfig.task t) ++ ", " ++
  "\"location\": " ++ jsonString (TaskConfig.location t) ++ ", " ++
  "\"timezone\": " ++ jsonString (TaskConfig.timezone t) ++ ", " ++
  "\"gt_urls\": " ++ jsonArray ((TaskConfig.gt_urls t).map (fun g => jsonArray (g.map jsonString))) ++
  "\x7d"

/-- `task_to_csv_row`: the row dictionary for one task, as an association list
in the literal insertion order of the source. -/
def task_to_csv_row (t : TaskConfig) : List (String × CellValue) :=
  [("task_id", CellValue.str (TaskConfig.task_id t)),
   ("task_generation_config_json", CellValue.str (task_generation_config_json t)),
   ("env", CellValue.str "real"),
   ("domain", CellValue.str "craigslist"),
   ("l1_category", CellValue.str "marketplace"),
   ("l2_category", CellValue.str (TaskConfig.l2_category t)),
   ("suggested_difficulty", CellValue.str (TaskConfig.difficulty t)),
   ("suggested_hint", CellValue.str "null"),
   ("suggested_max_steps", CellValue.int 0),
   ("suggested_split", CellValue.str "validation"),
   ("metadata_json", CellValue.str "null")]

/-- The `fieldnames` list passed to `csv.DictWriter`. -/
def fieldnames : List String :=
  ["task_id", "task_generation_config_json", "env", "domain",
   "l1_category", "l2_category", "suggested_difficulty",
   "suggested_hint", "suggested_max_steps", "suggested_split", "metadata_json"]

/-- `csv.DictWriter.writerow`: one cell per field name, looked up in the row
dictionary (an absent key would fall back to the empty `restval`). -/
def dictWriterCells (fns : List String) (row : List (String × CellValue)) : List String :=
  fns.map (fun n => cellToStr ((row.lookup n).getD (CellValue.str "")))

/-- Minimal quoting of one CSV field, as the `csv` module does with its default
dialect: quote only fields containing a comma, a double quote, or a line break,
doubling any double quote. -/
def csvField (s : String) : String :=
  if s.data.any (fun c => c.toNat = 44 || c.toNat = 34 || c.toNat = 13 || c.toNat = 10) then
    "\"" ++ String.join (s.data.map (fun c =>
      if c.toNat = 34 then String.mk [Char.ofNat 34, Char.ofNat 34] else String.singleton c)) ++ "\""
  else s

/-- One CSV line with the default dialect's CRLF line terminator. -/
def csvLine (cells : List String) : String :=
  String.intercalate "," (cells.map csvField) ++ "\r\n"

/-- The full CSV content: header row from `writeheader`, then one row per task. -/
def csvContent (tasks : List TaskConfig) : String :=
  csvLine fieldnames ++
  String.join (tasks.map (fun t => csvLine (dictWriterCells fieldnames (task_to_csv_row t))))

/-- `all_tasks` as accumulated by the generator loop in `main`, in the fixed
generator order. -/
def all_tasks (region : RegionKey) : List TaskConfig :=
  generate_cars_trucks_tasks region ++ generate_motorcycles_tasks region ++
  generate_rvs_camp_tasks region ++ generate_boats_tasks region

/-- The tail of `main` after the tasks are generated: the count assertion
followed by opening and writing the CSV.  An `Except.error` is the assertion
failure, raised before the output file is touched; an `Except.ok` carries the
output path and the bytes written to it. -/
def writeCsvPhase (tasks : List TaskConfig) (output : String) :
    Except String (String × String) :=
  if tasks.length = 100 then Except.ok (output, csvContent tasks)
  else Except.error ("Expected 100 tasks, got " ++ toString tasks.length)

/-- `main` for a parsed region choice and output path. -/
def mainModel (region : RegionKey) (output : String) : Except String (String × String) :=
  writeCsvPhase (all_tasks region) output

/-- The hundred task identifiers, in output order. -/
def task_id_list : List String := [
  "navi_bench/craigslist/cars_trucks/0",
  "navi_bench/craigslist/cars_trucks/1",
  "navi_bench/craigslist/cars_trucks/2",
  "navi_bench/craigslist/cars_trucks/3",
  "navi_bench/craigslist/cars_trucks/4",
  "navi_bench/craigslist/cars_trucks/5",
  "navi_bench/craigslist/cars_trucks/6",
  "navi_bench/craigslist/cars_trucks/7",
  "navi_bench/craigslist/cars_trucks/8",
  "navi_bench/craigslist/cars_trucks/9",
  "navi_bench/craigslist/cars_trucks/10",
  "navi_bench/craigslist/cars_trucks/11",
  "navi_bench/craigslist/cars_trucks/12",
  "navi_bench/craigslist/cars_trucks/13",
  "navi_bench/craigslist/cars_trucks/14",
  "navi_bench/craigslist/cars_trucks/15",
  "navi_bench/craigslist/cars_trucks/16",
  "navi_bench/craigslist/cars_trucks/17",
  "navi_bench/craigslist/cars_trucks/18",
  "navi_bench/craigslist/cars_trucks/19",
  "navi_bench/craigslist/cars_trucks/20",
  "navi_bench/craigslist/cars_trucks/21",
  "navi_bench/craigslist/cars_trucks/22",
  "navi_bench/craigslist/cars_trucks/23",
  "navi_bench/craigslist/cars_trucks/24",
  "navi_bench/craigslist/cars_trucks/25",
  "navi_bench/craigslist/cars_trucks/26",
  "navi_bench/craigslist/cars_trucks/27",
  "navi_bench/craigslist/cars_trucks/28",
  "navi_bench/craigslist/cars_trucks/29",
  "navi_bench/craigslist/motorcycles/0",
  "navi_bench/craigslist/motorcycles/1",
  "navi_bench/craigslist/motorcycles/2",
  "navi_bench/craigslist/motorcycles/3",
  "navi_bench/craigslist/motorcycles/4",
  "navi_bench/craigslist/motorcycles/5",
  "navi_bench/craigslist/motorcycles/6",
  "navi_bench/craigslist/motorcycles/7",
  "navi_bench/craigslist/motorcycles/8",
  "navi_bench/craigslist/motorcycles/9",
  "navi_bench/craigslist/motorcycles/10",
  "navi_bench/craigslist/motorcycles/11",
  "navi_bench/craigslist/motorcycles/12",
  "navi_bench/craigslist/motorcycles/13",
  "navi_bench/craigslist/motorcycles/14",
  "navi_bench/craigslist/motorcycles/15",
  "navi_bench/craigslist/motorcycles/16",
  "navi_bench/craigslist/motorcycles/17",
  "navi_bench/craigslist/motorcycles/18",
  "navi_bench/craigslist/motorcycles/19",
  "navi_bench/craigslist/motorcycles/20",
  "navi_bench/craigslist/motorcycles/21",
  "navi_bench/craigslist/motorcycles/22",
  "navi_bench/craigslist/motorcycles/23",
  "navi_bench/craigslist/motorcycles/24",
  "navi_bench/craigslist/rvs_camp/0",
  "navi_bench/craigslist/rvs_camp/1",
  "navi_bench/craigslist/rvs_camp/2",
  "navi_bench/craigslist/rvs_camp/3",
  "navi_bench/craigslist/rvs_camp/4",
  "navi_bench/craigslist/rvs_camp/5",
  "navi_bench/craigslist/rvs_camp/6",
  "navi_bench/craigslist/rvs_camp/7",
  "navi_bench/craigslist/rvs_camp/8",
  "navi_bench/craigslist/rvs_camp/9",
  "navi_bench/craigslist/rvs_camp/10",
  "navi_bench/craigslist/rvs_camp/11",
  "navi_bench/craigslist/rvs_camp/12",
  "navi_bench/craigslist/rvs_camp/13",
  "navi_bench/craigslist/rvs_camp/14",
  "navi_bench/craigslist/rvs_camp/15",
  "navi_bench/craigslist/rvs_camp/16",
  "navi_bench/craigslist/rvs_camp/17",
  "navi_bench/craigslist/rvs_camp/18",
  "navi_bench/craigslist/rvs_camp/19",
  "navi_bench/craigslist/rvs_camp/20",
  "navi_bench/craigslist/rvs_camp/21",
  "navi_bench/craigslist/rvs_camp/22",
  "navi_bench/craigslist/boats/0",
  "navi_bench/craigslist/boats/1",
  "navi_bench/craigslist/boats/2",
  "navi_bench/craigslist/boats/3",
  "navi_bench/craigslist/boats/4",
  "navi_bench/craigslist/boats/5",
  "navi_bench/craigslist/boats/6",
  "navi_bench/craigslist/boats/7",
  "navi_bench/craigslist/boats/8",
  "navi_bench/craigslist/boats/9",
  "navi_bench/craigslist/boats/10",
  "navi_bench/craigslist/boats/11",
  "navi_bench/craigslist/boats/12",
  "navi_bench/craigslist/boats/13",
  "navi_bench/craigslist/boats/14",
  "navi_bench/craigslist/boats/15",
  "navi_bench/craigslist/boats/16",
  "navi_bench/craigslist/boats/17",
  "navi_bench/craigslist/boats/18",
  "navi_bench/craigslist/boats/19",
  "navi_bench/craigslist/boats/20",
  "navi_bench/craigslist/boats/21"]

theorem build_url_nil (b c : String) :
    build_url b c [] = b ++ ("/search/" ++ (c ++ "#search=2~gallery~0")) := by
  unfold build_url
  simp [String.append_assoc]

theorem build_url_cons (b c : String) (p : List (String × PyValue)) (h : p ≠ []) :
    build_url b c p =
      b ++ ("/search/" ++ (c ++ ("?" ++ (String.intercalate "&"
        (p.flatMap (fun kv => encodeParam kv.1 kv.2)) ++ "#search=2~gallery~0")))) := by
  unfold build_url
  simp [h, String.append_assoc]

theorem build_url_prefix (b c : String) (p : List (String × PyValue)) :
    ∃ rest, build_url b c p = b ++ rest := by
  rcases Decidable.em (p = []) with h | h
  · subst h
    exact ⟨_, build_url_nil b c⟩
  · exact ⟨_, build_url_cons b c p h⟩

theorem encodeParam_special (key : String) (v : PyValue)
    (h : key = "query" ∨ key = "auto_make_model") :
    encodeParam key v = [key ++ "=" ++ quote (pyToStr v)] := by
  rcases h with h | h <;> subst h <;> rfl

theorem charToNat_lt (c : Char) : c.toNat < 1114112 := by
  rcases c with ⟨v, hv⟩
  rcases hv with h | ⟨h1, h2⟩ <;> simp [Char.toNat] <;> omega

theorem charUtf8_lt (c : Char) (b : Nat) (hb : b ∈ charUtf8 c) : b < 256 := by
  have h := charToNat_lt c
  unfold charUtf8 at hb
  dsimp only at hb
  split at hb
  · simp at hb; omega
  · split at hb
    · simp at hb; rcases hb with hb | hb <;> omega
    · split at hb
      · simp at hb; rcases hb with hb | hb | hb <;> omega
      · simp at hb; rcases hb with hb | hb | hb | hb <;> omega

set_option maxRecDepth 4096 in
theorem quoteByteChars_no_space : ∀ n < 256, Char.ofNat 32 ∉ quoteByteChars n := by decide

theorem quote_no_space (s : String) : Char.ofNat 32 ∉ (quote s).data := by
  intro hmem
  have hmem2 : Char.ofNat 32 ∈ (s.data.flatMap charUtf8).flatMap quoteByteChars := hmem
  obtain ⟨b, hb, hc⟩ := List.mem_flatMap.1 hmem2
  obtain ⟨ch, _, hch⟩ := List.mem_flatMap.1 hb
  exact quoteByteChars_no_space b (charUtf8_lt ch b hch) hc

theorem all_tasks_length (r : RegionKey) : (all_tasks r).length = 100 := by
  cases r <;> decide

theorem mainModel_eq (r : RegionKey) (o : String) :
    mainModel r o = Except.ok (o, csvContent (all_tasks r)) := by
  unfold mainModel writeCsvPhase
  simp [all_tasks_length r]

theorem enumMap_getElem? {α β : Type} (l : List α) (f : Nat × α → β) (i : Nat)
    (h : i < l.length) :
    ((l.enum).map f)[i]? = some (f (i, l.get ⟨i, h⟩)) := by
  simp [List.getElem?_map, List.getElem?_enum, List.getElem?_eq_getElem h]

theorem all_tasks_map_id (r : RegionKey) :
    (all_tasks r).map TaskConfig.task_id = task_id_list := by
  cases r <;> rfl

/-- Base-256 fingerprint of a string, used to reduce distinctness of the task
identifiers to distinctness of natural numbers. -/
def idCode (s : String) : Nat :=
  s.data.foldl (fun acc c => acc * 256 + c.toNat) 0

set_option maxHeartbeats 1000000 in
set_option maxRecDepth 16384 in
theorem task_id_codes_nodup : (task_id_list.map idCode).Nodup := by decide

theorem task_id_list_nodup : task_id_list.Nodup :=
  List.Nodup.of_map idCode task_id_codes_nodup

/-- Claim C1: for every base URL, `build_url` with category code "cta" and an
empty parameter mapping returns exactly base ++ "/search/cta#search=2~gallery~0";
no "?..." query segment is emitted, but the fixed fragment suffix is appended. -/
theorem c1_build_url_no_params (base : String) :
    build_url base "cta" [] = base ++ "/search/cta#search=2~gallery~0" := by
  rw [build_url_nil]
  exact congrArg (fun t => base ++ t) (by decide)

/-- Claim C2: a parameter named exactly "query" or "auto_make_model" is
percent-encoded with `quote` before being emitted as name=encoded_value; the
output of `quote` never contains a literal space (spaces become "%20"), and on
the concrete example `build_url(base, "mca", {"query": "class a motorhome"})`
the spaces of the value appear as "%20". -/
theorem c2_query_percent_encoding :
    (∀ (key : String) (v : PyValue), (key = "query" ∨ key = "auto_make_model") →
      encodeParam key v = [key ++ "=" ++ quote (pyToStr v)]) ∧
    (∀ s : String, Char.ofNat 32 ∉ (quote s).data) ∧
    (∀ base : String,
      build_url base "mca" [("query", vstr "class a motorhome")] =
        base ++ "/search/mca?query=class%20a%20motorhome#search=2~gallery~0") := by
  refine ⟨encodeParam_special, quote_no_space, fun base => ?_⟩
  rw [build_url_cons _ _ _ (by decide)]
  exact congrArg (fun t => base ++ t) (by decide)

theorem c2_witness :
    encodeParam "query" (vstr "class a motorhome") =
      ["query=" ++ quote (pyToStr (vstr "class a motorhome"))] ∧
    Char.ofNat 32 ∉ (quote "class a motorhome").data ∧
    build_url "https://sfbay.craigslist.org" "mca" [("query", vstr "class a motorhome")] =
      "https://sfbay.craigslist.org" ++
        "/search/mca?query=class%20a%20motorhome#search=2~gallery~0" :=
  ⟨c2_query_percent_encoding.1 "query" (vstr "class a motorhome") (Or.inl rfl),
   c2_query_percent_encoding.2.1 "class a motorhome",
   c2_query_percent_encoding.2.2 "https://sfbay.craigslist.org"⟩

/-- Claim C3: for a non-empty parameter mapping, a list-valued parameter whose
name is not one of the two special names expands to one name=value pair per
element in list order with values emitted verbatim, other scalar parameters
are emitted verbatim as a single pair, all pairs are joined with
"&" in insertion order behind a "?" prefix; on the concrete example
`build_url(base, "boa", {"hasPic": ["1"], "sort": "priceasc"})` the query
string is "?hasPic=1&sort=priceasc" in that order. -/
theorem c3_list_params_expansion :
    (∀ (key : String) (vs : List PyScalar),
      ¬(key = "query" ∨ key = "auto_make_model") →
      encodeParam key (PyValue.list vs) = vs.map (fun v => key ++ "=" ++ scalarStr v)) ∧
    (∀ (key : String) (sc : PyScalar),
      ¬(key = "query" ∨ key = "auto_make_model") →
      encodeParam key (PyValue.scalar sc) = [key ++ "=" ++ scalarStr sc]) ∧
    (∀ (b c : String) (p : List (String × PyValue)), p ≠ [] →
      build_url b c p =
        b ++ ("/search/" ++ (c ++ ("?" ++ (String.intercalate "&"
          (p.flatMap (fun kv => encodeParam kv.1 kv.2)) ++ "#search=2~gallery~0"))))) ∧
    (∀ base : String,
      build_url base "boa"
          [("hasPic", PyValue.list [PyScalar.str "1"]), ("sort", vstr "priceasc")] =
        base ++ "/search/boa?hasPic=1&sort=priceasc#search=2~gallery~0") := by
  refine ⟨?_, ?_, build_url_cons, fun base => ?_⟩
  · intro key vs h
    push_neg at h
    simp [encodeParam, h.1, h.2]
  · intro key sc h
    push_neg at h
    simp [encodeParam, h.1, h.2]
  · rw [build_url_cons _ _ _ (by decide)]
    exact congrArg (fun t => base ++ t) (by decide)

theorem c3_witness :
    encodeParam "hasPic" (PyValue.list [PyScalar.str "1", PyScalar.str "2"]) =
      ["hasPic=1", "hasPic=2"] ∧
    build_url "https://sfbay.craigslist.org" "boa"
        [("hasPic", PyValue.list [PyScalar.str "1"]), ("sort", vstr "priceasc")] =
      "https://sfbay.craigslist.org" ++
        "/search/boa?hasPic=1&sort=priceasc#search=2~gallery~0" :=
  ⟨(c3_list_params_expansion.1 "hasPic" [PyScalar.str "1", PyScalar.str "2"]
      (by decide)).trans (by decide),
   c3_list_params_expansion.2.2.2 "https://sfbay.craigslist.org"⟩

/-- Claim C10: the percent-encoding branch for the names "query" and
"auto_make_model" takes precedence over list expansion: a list value under one
of these names is not expanded into repeated pairs but coerced to its Python
string form and percent-encoded as one single pair. -/
theorem c10_special_key_overrides_list (key : String) (vs : List PyScalar)
    (h : key = "query" ∨ key = "auto_make_model") :
    encodeParam key (PyValue.list vs) =
      [key ++ "=" ++ quote (pyToStr (PyValue.list vs))] :=
  encodeParam_special key (PyValue.list vs) h

theorem c10_witness :
    encodeParam "query" (PyValue.list [PyScalar.str "a"]) = ["query=%5B%27a%27%5D"] :=
  (c10_special_key_overrides_list "query" [PyScalar.str "a"] (Or.inl rfl)).trans (by decide)

/-- The hundred l2_category labels, in output order. -/
def l2_list : List String := [
  "cars_trucks",
  "cars_trucks",
  "cars_trucks",
  "cars_trucks",
  "cars_trucks",
  "cars_trucks",
  "cars_trucks",
  "cars_trucks",
  "cars_trucks",
  "cars_trucks",
  "cars_trucks",
  "cars_trucks",
  "cars_trucks",
  "cars_trucks",
  "cars_trucks",
  "cars_trucks",
  "cars_trucks",
  "cars_trucks",
  "cars_trucks",
  "cars_trucks",
  "cars_trucks",
  "cars_trucks",
  "cars_trucks",
  "cars_trucks",
  "cars_trucks",
  "cars_trucks",
  "cars_trucks",
  "cars_trucks",
  "cars_trucks",
  "cars_trucks",
  "motorcycles",
  "motorcycles",
  "motorcycles",
  "motorcycles",
  "motorcycles",
  "motorcycles",
  "motorcycles",
  "motorcycles",
  "motorcycles",
  "motorcycles",
  "motorcycles",
  "motorcycles",
  "motorcycles",
  "motorcycles",
  "motorcycles",
  "motorcycles",
  "motorcycles",
  "motorcycles",
  "motorcycles",
  "motorcycles",
  "motorcycles",
  "motorcycles",
  "motorcycles",
  "motorcycles",
  "motorcycles",
  "rvs_camp",
  "rvs_camp",
  "rvs_camp",
  "rvs_camp",
  "rvs_camp",
  "rvs_camp",
  "rvs_camp",
  "rvs_camp",
  "rvs_camp",
  "rvs_camp",
  "rvs_camp",
  "rvs_camp",
  "rvs_camp",
  "rvs_camp",
  "rvs_camp",
  "rvs_camp",
  "rvs_camp",
  "rvs_camp",
  "rvs_camp",
  "rvs_camp",
  "rvs_camp",
  "rvs_camp",
  "rvs_camp",
  "boats",
  "boats",
  "boats",
  "boats",
  "boats",
  "boats",
  "boats",
  "boats",
  "boats",
  "boats",
  "boats",
  "boats",
  "boats",
  "boats",
  "boats",
  "boats",
  "boats",
  "boats",
  "boats",
  "boats",
  "boats",
  "boats"]

theorem all_tasks_map_l2 (r : RegionKey) :
    (all_tasks r).map TaskConfig.l2_category = l2_list := by
  cases r <;> rfl


theorem cars_prefix (r : RegionKey) (t : TaskConfig)
    (h : t ∈ generate_cars_trucks_tasks r) :
    (∃ rest, TaskConfig.url t = regionUrl (REGIONS r) ++ rest) ∧
    (∀ u ∈ (TaskConfig.gt_urls t).flatten, ∃ rest, u = regionUrl (REGIONS r) ++ rest) := by
  obtain ⟨x, hx, rfl⟩ := List.mem_map.1 h
  refine ⟨⟨_, rfl⟩, ?_⟩
  intro u hu
  simp at hu
  subst hu
  exact build_url_prefix _ _ _

theorem motorcycles_prefix (r : RegionKey) (t : TaskConfig)
    (h : t ∈ generate_motorcycles_tasks r) :
    (∃ rest, TaskConfig.url t = regionUrl (REGIONS r) ++ rest) ∧
    (∀ u ∈ (TaskConfig.gt_urls t).flatten, ∃ rest, u = regionUrl (REGIONS r) ++ rest) := by
  obtain ⟨x, hx, rfl⟩ := List.mem_map.1 h
  refine ⟨⟨_, rfl⟩, ?_⟩
  intro u hu
  simp at hu
  subst hu
  exact build_url_prefix _ _ _

theorem rvs_prefix (r : RegionKey) (t : TaskConfig)
    (h : t ∈ generate_rvs_camp_tasks r) :
    (∃ rest, TaskConfig.url t = regionUrl (REGIONS r) ++ rest) ∧
    (∀ u ∈ (TaskConfig.gt_urls t).flatten, ∃ rest, u = regionUrl (REGIONS r) ++ rest) := by
  obtain ⟨x, hx, rfl⟩ := List.mem_map.1 h
  refine ⟨⟨_, rfl⟩, ?_⟩
  intro u hu
  simp at hu
  subst hu
  exact build_url_prefix _ _ _

theorem boats_prefix (r : RegionKey) (t : TaskConfig)
    (h : t ∈ generate_boats_tasks r) :
    (∃ rest, TaskConfig.url t = regionUrl (REGIONS r) ++ rest) ∧
    (∀ u ∈ (TaskConfig.gt_urls t).flatten, ∃ rest, u = regionUrl (REGIONS r) ++ rest) := by
  obtain ⟨x, hx, rfl⟩ := List.mem_map.1 h
  refine ⟨⟨_, rfl⟩, ?_⟩
  intro u hu
  simp at hu
  subst hu
  exact build_url_prefix _ _ _

/-- Claim C4: every URL built from a configured region's base URL begins with
that region's exact URL prefix, and so does the url field and every
ground-truth URL of every task generated for that region. -/
theorem c4_region_url_prefixes :
    (∀ (r : RegionKey) (code : String) (p : List (String × PyValue)),
      ∃ rest, build_url (regionUrl (REGIONS r)) code p = regionUrl (REGIONS r) ++ rest) ∧
    (∀ (r : RegionKey) (t : TaskConfig), t ∈ all_tasks r →
      (∃ rest, TaskConfig.url t = regionUrl (REGIONS r) ++ rest) ∧
      (∀ u ∈ (TaskConfig.gt_urls t).flatten, ∃ rest, u = regionUrl (REGIONS r) ++ rest)) := by
  refine ⟨fun r code p => build_url_prefix _ code p, ?_⟩
  intro r t ht
  rw [all_tasks] at ht
  rcases List.mem_append.1 ht with habc | h4
  · rcases List.mem_append.1 habc with hab | h3
    · rcases List.mem_append.1 hab with h1 | h2
      · exact cars_prefix r t h1
      · exact motorcycles_prefix r t h2
    · exact rvs_prefix r t h3
  · exact boats_prefix r t h4

/-- The first cars+trucks task of the sfbay region, written out. -/
def sampleCarTask : TaskConfig :=
  { task_id := "navi_bench/craigslist/cars_trucks/0",
    task := "Find Toyota cars with images priced under $15,000.",
    url := "https://sfbay.craigslist.org/search/cta",
    gt_urls := [[build_url "https://sfbay.craigslist.org" "cta"
      [("auto_make_model", vstr "toyota"), ("hasPic", vstr "1"),
       ("max_price", vstr "15000")]]],
    location := "San Francisco, CA, United States",
    timezone := "America/Los_Angeles",
    difficulty := "medium",
    l2_category := "cars_trucks" }

theorem c4_witness :
    ∃ rest, TaskConfig.url sampleCarTask = regionUrl (REGIONS RegionKey.sfbay) ++ rest :=
  (c4_region_url_prefixes.2 RegionKey.sfbay sampleCarTask (by decide)).1

/-- Claim C5: for every valid region key the generator produces exactly 100
task records, partitioned as 30 cars_trucks, 25 motorcycles, 23 rvs_camp and
22 boats, and the task_id values are pairwise distinct. -/
theorem c5_partition_and_unique_ids (r : RegionKey) :
    (all_tasks r).length = 100 ∧
    ((all_tasks r).map TaskConfig.l2_category).count "cars_trucks" = 30 ∧
    ((all_tasks r).map TaskConfig.l2_category).count "motorcycles" = 25 ∧
    ((all_tasks r).map TaskConfig.l2_category).count "rvs_camp" = 23 ∧
    ((all_tasks r).map TaskConfig.l2_category).count "boats" = 22 ∧
    ((all_tasks r).map TaskConfig.task_id).Nodup := by
  rw [all_tasks_map_l2 r, all_tasks_map_id r]
  exact ⟨all_tasks_length r, by decide, by decide, by decide, by decide, task_id_list_nodup⟩

/-- Claim C6: if the number of generated tasks is not exactly 100, the run
fails with the assertion error before the CSV file is opened, leaving the file
system untouched (`Except.error` carries no written output); the CSV content
is produced only on the `Except.ok` path after the count check passes, and in
the actual program the check passes for every region. -/
theorem c6_assert_before_write :
    (∀ (tasks : List TaskConfig) (output : String), tasks.length ≠ 100 →
      writeCsvPhase tasks output =
        Except.error ("Expected 100 tasks, got " ++ toString tasks.length)) ∧
    (∀ (r : RegionKey) (output : String),
      mainModel r output = Except.ok (output, csvContent (all_tasks r))) := by
  constructor
  · intro tasks output h
    simp [writeCsvPhase, h]
  · intro r output
    exact mainModel_eq r output

theorem c6_witness :
    writeCsvPhase [] "dataset_100.csv" = Except.error "Expected 100 tasks, got 0" := by
  rw [c6_assert_before_write.1 [] "dataset_100.csv" (by decide)]
  exact congrArg Except.error (by decide)

/-- Claim C7: the CSV columns are the fixed eleven field names in order, every
row dictionary lists exactly those keys in that order, and in every row
suggested_hint and metadata_json are the literal string "null",
suggested_max_steps is 0, suggested_split is "validation" and env is "real";
the serialized cells of any row follow the fieldnames order. -/
theorem c7_fixed_columns_and_constants :
    fieldnames = ["task_id", "task_generation_config_json", "env", "domain",
      "l1_category", "l2_category", "suggested_difficulty",
      "suggested_hint", "suggested_max_steps", "suggested_split", "metadata_json"] ∧
    (∀ t : TaskConfig,
      (task_to_csv_row t).map Prod.fst = fieldnames ∧
      (task_to_csv_row t).lookup "suggested_hint" = some (CellValue.str "null") ∧
      (task_to_csv_row t).lookup "metadata_json" = some (CellValue.str "null") ∧
      (task_to_csv_row t).lookup "suggested_max_steps" = some (CellValue.int 0) ∧
      (task_to_csv_row t).lookup "suggested_split" = some (CellValue.str "validation") ∧
      (task_to_csv_row t).lookup "env" = some (CellValue.str "real") ∧
      dictWriterCells fieldnames (task_to_csv_row t) =
        [TaskConfig.task_id t, task_generation_config_json t, "real", "craigslist",
         "marketplace", TaskConfig.l2_category t, TaskConfig.difficulty t,
         "null", "0", "validation", "null"]) :=
  ⟨rfl, fun _ => ⟨rfl, rfl, rfl, rfl, rfl, rfl, rfl⟩⟩

/-- Claim C8: the generation path is deterministic: two runs with equal region
and output-path arguments produce the same result, and the produced CSV
content does not depend on the output path at all. -/
theorem c8_deterministic_output :
    (∀ (r1 r2 : RegionKey) (o1 o2 : String), r1 = r2 → o1 = o2 →
      mainModel r1 o1 = mainModel r2 o2) ∧
    (∀ (r : RegionKey) (o1 o2 : String),
      Except.map Prod.snd (mainModel r o1) = Except.map Prod.snd (mainModel r o2)) := by
  constructor
  · intro r1 r2 o1 o2 h1 h2
    rw [h1, h2]
  · intro r o1 o2
    rw [mainModel_eq, mainModel_eq]
    rfl

theorem c8_witness :
    mainModel RegionKey.sfbay "dataset_100.csv" = mainModel RegionKey.sfbay "dataset_100.csv" :=
  c8_deterministic_output.1 RegionKey.sfbay RegionKey.sfbay
    "dataset_100.csv" "dataset_100.csv" rfl rfl

/-- Claim C9: in every category generator, the record at zero-based index i
has task_id equal to the fixed namespace prefix followed by the category name
and i, and its gt_urls field is the singleton-of-singleton list holding
exactly the URL built by build_url with that category's fixed code from the
triple's parameter mapping. -/
theorem c9_task_id_and_gt_urls (r : RegionKey) (i : Nat) :
    (∀ h : i < car_tasks.length,
      ∃ t, (generate_cars_trucks_tasks r)[i]? = some t ∧
        TaskConfig.task_id t = "navi_bench/craigslist/cars_trucks/" ++ toString i ∧
        TaskConfig.gt_urls t = [[build_url (regionUrl (REGIONS r)) "cta"
          (TaskEntry.params (car_tasks.get ⟨i, h⟩))]]) ∧
    (∀ h : i < motorcycle_tasks.length,
      ∃ t, (generate_motorcycles_tasks r)[i]? = some t ∧
        TaskConfig.task_id t = "navi_bench/craigslist/motorcycles/" ++ toString i ∧
        TaskConfig.gt_urls t = [[build_url (regionUrl (REGIONS r)) "mca"
          (TaskEntry.params (motorcycle_tasks.get ⟨i, h⟩))]]) ∧
    (∀ h : i < rv_tasks.length,
      ∃ t, (generate_rvs_camp_tasks r)[i]? = some t ∧
        TaskConfig.task_id t = "navi_bench/craigslist/rvs_camp/" ++ toString i ∧
        TaskConfig.gt_urls t = [[build_url (regionUrl (REGIONS r)) "rva"
          (TaskEntry.params (rv_tasks.get ⟨i, h⟩))]]) ∧
    (∀ h : i < boat_tasks.length,
      ∃ t, (generate_boats_tasks r)[i]? = some t ∧
        TaskConfig.task_id t = "navi_bench/craigslist/boats/" ++ toString i ∧
        TaskConfig.gt_urls t = [[build_url (regionUrl (REGIONS r)) "boa"
          (TaskEntry.params (boat_tasks.get ⟨i, h⟩))]]) :=
  ⟨fun h => ⟨_, enumMap_getElem? car_tasks _ i h, rfl, rfl⟩,
   fun h => ⟨_, enumMap_getElem? motorcycle_tasks _ i h, rfl, rfl⟩,
   fun h => ⟨_, enumMap_getElem? rv_tasks _ i h, rfl, rfl⟩,
   fun h => ⟨_, enumMap_getElem? boat_tasks _ i h, rfl, rfl⟩⟩

theorem c9_witness :
    ∃ t, (generate_cars_trucks_tasks RegionKey.sfbay)[0]? = some t ∧
      TaskConfig.task_id t = "navi_bench/craigslist/cars_trucks/" ++ toString 0 ∧
      TaskConfig.gt_urls t = [[build_url (regionUrl (REGIONS RegionKey.sfbay)) "cta"
        (TaskEntry.params (car_tasks.get ⟨0, by decide⟩))]] :=
  (c9_task_id_and_gt_urls RegionKey.sfbay 0).1 (by decide)
